import Mathlib

/-!
Shallow embedding of the authorization-resolution, rate-limiting and
job-orchestration core of the `tts-stt` backend (TypeScript/Express), together
with theorems settling the frozen specification claims.

Conventions of the embedding:
* JavaScript numbers that carry durations/timestamps are modelled as `Rat`
  (the claims only depend on sign, ordering and equality, never on rounding);
  millisecond clock readings are `Nat`.
* `prisma` storage calls are modelled as pure state transitions on a `Store`
  value; each call site that may throw takes an `Option String` from an
  environment record: `none` means the call succeeds, `some m` means the call
  throws a storage error whose `.message` is `m`.
* A thrown JavaScript `Error` is a `JsError` (its `message`, plus the optional
  `status` field the middleware code attaches with `(error as any).status`).
* `a || b` on strings/numbers (falsy fallback) is modelled explicitly:
  the empty string and the number 0 are falsy.
-/

namespace TtsStt

/-- JS `Error` as thrown by the backend: `message`, and the optional
`status` property the middlewares attach via `(error as any).status`. -/
structure JsError where
  message : String
  status : Option Nat
deriving DecidableEq, Repr

/-- Job lifecycle states (`JobStatus` prisma enum). -/
inductive JobStatus where
  | processing
  | completed
  | failed
deriving DecidableEq, Repr

/-- JS truthiness of an optional string (`undefined`/`null` and `""` are falsy). -/
def jsTruthyStr : Option String → Bool
  | none => false
  | some s => s ≠ ""

/-- JS `a || b` for an optional string `a`: falls back to `b` when `a` is
absent or empty. -/
def jsOrStr (a : Option String) (b : String) : String :=
  match a with
  | none => b
  | some s => if s = "" then b else s

/-- JS `a || b` for an optional number `a`: falls back when `a` is absent or 0. -/
def jsOrNat (a : Option Nat) (b : Nat) : Nat :=
  match a with
  | none => b
  | some n => if n = 0 then b else n

/-- JS `s.toLowerCase()` (ASCII). -/
def jsToLower (s : String) : String := String.mk (s.data.map Char.toLower)

/-- Whitespace characters for `String.prototype.trim`. -/
def isWsChar (c : Char) : Bool := c = ' ' ∨ c = '\t' ∨ c = '\n' ∨ c = '\r'

/-- JS `s.trim()`: strip leading and trailing whitespace. -/
def jsTrim (s : String) : String :=
  String.mk (((s.data.dropWhile isWsChar).reverse.dropWhile isWsChar).reverse)

/-- Split a character list at every occurrence of the separator. -/
def splitCharsOn (sep : Char) : List Char → List Char → List String
  | [], acc => [String.mk acc.reverse]
  | c :: cs, acc =>
    if c = sep then String.mk acc.reverse :: splitCharsOn sep cs []
    else splitCharsOn sep cs (c :: acc)

/-- JS `s.split(' ')`. -/
def jsSplitSpace (s : String) : List String := splitCharsOn ' ' s.data []

/-! ## Error middleware (`error.middleware.ts`)

`errorHandler` sends `err.status || 500` and `err.message || 'Internal Server
Error'` back to the client verbatim, as a `{ message, status: 'error' }` JSON
body. -/

/-- The HTTP response produced by the global `errorHandler` middleware. -/
structure ErrorResponse where
  httpStatus : Nat
  message : String
deriving DecidableEq, Repr

/-- `error.middleware.ts` `errorHandler`: status is `err.status || 500`,
body message is `err.message || 'Internal Server Error'`. -/
def errorHandler (e : JsError) : ErrorResponse :=
  { httpStatus := jsOrNat e.status 500
    message := if e.message = "" then "Internal Server Error" else e.message }

/-! ## Rate limiting (`rateLimit.middleware.ts`)

Fixed-window counter keyed by `api-key:<id>` / `org:<id>` / `ip:<addr>`.
We model the bucket of a single key; time is in milliseconds. -/

/-- One entry of the in-process `buckets` map. -/
structure RateBucket where
  count : Nat
  expiresAt : Nat
deriving DecidableEq, Repr

/-- Outcome of the `rateLimit` middleware for one request: either `next()` is
called, or a response with the given HTTP status and `Retry-After` seconds is
sent. -/
inductive RateDecision where
  | admitted
  | rejected (httpStatus : Nat) (retryAfter : Nat)
deriving DecidableEq, Repr

/-- Effective limit: `overrideLimit || req.auth?.apiKey?.rateLimitPerMinute ||
config.rateLimit.defaultLimit` (JS `||`, so a 0 falls through). -/
def effectiveLimit (overrideLimit : Option Nat) (apiKeyLimit : Option Nat)
    (defaultLimit : Nat) : Nat :=
  jsOrNat overrideLimit (jsOrNat apiKeyLimit defaultLimit)

/-- One execution of the `rateLimit` middleware body for a fixed bucket key:
fresh window (count 1) when the bucket is absent or expired; rejection with
`Retry-After = Math.ceil((expiresAt - now) / 1000)` and HTTP 429 when the
count has reached the limit; otherwise increment and admit. -/
def rateLimitStep (limit windowMs now : Nat) (bucket : Option RateBucket) :
    RateDecision × Option RateBucket :=
  match bucket with
  | none => (.admitted, some ⟨1, now + windowMs⟩)
  | some b =>
    if b.expiresAt ≤ now then
      (.admitted, some ⟨1, now + windowMs⟩)
    else if limit ≤ b.count then
      -- Math.ceil over exact rationals equals ceiling division on Nat here
      (.rejected 429 ((b.expiresAt - now + 999) / 1000), some b)
    else
      (.admitted, some ⟨b.count + 1, b.expiresAt⟩)

/-- Run the middleware over a sequence of request instants (all for the same
bucket key), threading the bucket; returns the decisions in order plus the
final bucket. -/
def rateLimitRun (limit windowMs : Nat) :
    List Nat → Option RateBucket → List RateDecision × Option RateBucket
  | [], bucket => ([], bucket)
  | now :: rest, bucket =>
    let (d, bucket') := rateLimitStep limit windowMs now bucket
    let (ds, bucket'') := rateLimitRun limit windowMs rest bucket'
    (d :: ds, bucket'')

/-! ## API-key middleware (`apiKey.middleware.ts`)

`attachApiKey` reads the `x-api-key` header, hashes it, looks the digest up in
storage, rejects missing/revoked records with a 401 `Error('Invalid API key')`,
attaches the record and its organization to `req.auth`, then awaits a
`lastUsedAt` update.  The SHA-256 digest is modelled as an arbitrary supplied
function `hashKey` (its algebraic properties are irrelevant to the claims:
lookup compares digests for equality). -/

/-- A stored `ApiKey` row. -/
structure ApiKeyRecord where
  id : String
  orgId : String
  keyHash : String
  name : String
  scopes : List String
  rateLimitPerMinute : Option Nat
  revokedAt : Option Nat
  lastUsedAt : Option Nat
deriving DecidableEq, Repr

/-- A stored `User` row (fields the auth middleware touches). -/
structure UserRecord where
  id : String
  orgId : String
  email : String
  role : String
deriving DecidableEq, Repr

/-- The `req.auth` container the middlewares populate. -/
structure AuthState where
  user : Option UserRecord
  apiKey : Option ApiKeyRecord
  orgId : Option String
deriving DecidableEq, Repr

/-- An empty `req.auth`. -/
def AuthState.empty : AuthState := ⟨none, none, none⟩

/-- `attachApiKey`: `hashKey` is the digest function, `now` the clock,
`lastUsedError` injects a failure of the `lastUsedAt` update
(`none` = the update succeeds), `header` is the `x-api-key` header, `keys` the
`apiKey` table, `auth` the incoming `req.auth`.  Returns the thrown error or
the updated `(req.auth, apiKey table)`. -/
def attachApiKey (hashKey : String → String) (now : Nat)
    (lastUsedError : Option String) (header : Option String)
    (keys : List ApiKeyRecord) (auth : AuthState) :
    Except JsError (AuthState × List ApiKeyRecord) :=
  match header with
  | none => .ok (auth, keys)
  | some raw =>
    let hashed := hashKey (jsTrim raw)
    match keys.find? (fun k => k.keyHash = hashed) with
    | none => .error ⟨"Invalid API key", some 401⟩
    | some record =>
      if record.revokedAt.isSome then
        .error ⟨"Invalid API key", some 401⟩
      else
        let auth' : AuthState :=
          { auth with apiKey := some record, orgId := some record.orgId }
        match lastUsedError with
        | some m => .error ⟨m, none⟩
        | none =>
          .ok (auth',
            keys.map fun k =>
              if k.id = record.id then { k with lastUsedAt := some now } else k)

/-- Outcome of an Express middleware: pass control to the next handler with an
updated request, send a response directly, or forward an error to the error
middleware (`next(error)`). -/
inductive MwOutcome (α : Type) where
  | next (a : α)
  | respond (status : Nat) (message : String)
  | failed (e : JsError)
deriving DecidableEq, Repr

/-- `optionalApiKey`: `attachApiKey` in a try/catch, `next()` on success and
`next(error)` on a throw. -/
def optionalApiKey (hashKey : String → String) (now : Nat)
    (lastUsedError : Option String) (header : Option String)
    (keys : List ApiKeyRecord) (auth : AuthState) :
    MwOutcome (AuthState × List ApiKeyRecord) :=
  match attachApiKey hashKey now lastUsedError header keys auth with
  | .ok result => .next result
  | .error e => .failed e

/-! ## JWT middleware (`auth.middleware.ts`)

`attachJwtToRequest` splits the `Authorization` header on spaces, requires the
scheme literal `Bearer` plus a truthy token, verifies the token (modelled as a
supplied verification oracle `verify`, which throws with a message on a bad
signature/expiry), looks up the subject and rejects an absent subject or a
tenant mismatch with a 401 `Error('Invalid authentication token')`. -/

/-- Decoded JWT payload. -/
structure JwtPayload where
  sub : String
  orgId : String
  role : String
  email : String
deriving DecidableEq, Repr

/-- `attachJwtToRequest`: `verify` models `jwt.verify(token, secret)`
(`.error m` = it throws an error with message `m`). -/
def attachJwtToRequest (verify : String → Except String JwtPayload)
    (header : Option String) (users : List UserRecord) (auth : AuthState) :
    Except JsError AuthState :=
  match header with
  | none => .ok auth
  | some h =>
    let parts := jsSplitSpace h
    let scheme := parts.getD 0 ""
    let token := parts.getD 1 ""
    if scheme ≠ "Bearer" ∨ token = "" then
      .error ⟨"Invalid Authorization header format", some 401⟩
    else
      match verify token with
      | .error m => .error ⟨m, none⟩
      | .ok payload =>
        match users.find? (fun u => u.id = payload.sub) with
        | none => .error ⟨"Invalid authentication token", some 401⟩
        | some user =>
          if user.orgId ≠ payload.orgId then
            .error ⟨"Invalid authentication token", some 401⟩
          else
            .ok { auth with user := some user, orgId := some user.orgId }

/-! ## API-key service (`apiKey.service.ts`)

`ApiKeyService.revoke(orgId, apiKeyId)`: `findFirst({ id, orgId })`; 404 when
absent; return the record unchanged when already revoked; otherwise set
`revokedAt = new Date()`. -/

/-- `ApiKeyService.revoke`.  Returns the (possibly updated) record and the
resulting `apiKey` table. -/
def apiKeyRevoke (now : Nat) (orgId apiKeyId : String)
    (keys : List ApiKeyRecord) :
    Except JsError (ApiKeyRecord × List ApiKeyRecord) :=
  match keys.find? (fun k => k.id = apiKeyId ∧ k.orgId = orgId) with
  | none => .error ⟨"API key not found", some 404⟩
  | some existing =>
    if existing.revokedAt.isSome then
      .ok (existing, keys)
    else
      let updated := { existing with revokedAt := some now }
      .ok (updated,
        keys.map fun k =>
          if k.id = apiKeyId then { k with revokedAt := some now } else k)

/-! ## Storage state

Rows of the tables the orchestration services write.  Ids are drawn from a
single counter `nextId`. -/

/-- A `ttsJob` row. -/
structure TtsJob where
  id : Nat
  orgId : String
  userId : Option String
  apiKeyId : Option String
  inputText : String
  language : String
  voiceProfileId : Option String
  emotion : Option String
  speed : Option Rat
  status : JobStatus
  errorMessage : Option String
  resultAudioFileId : Option Nat
  completedAt : Bool
deriving DecidableEq, Repr

/-- An `sttJob` row. -/
structure SttJob where
  id : Nat
  orgId : String
  userId : Option String
  apiKeyId : Option String
  inputAudioFileId : Nat
  modelUsed : String
  status : JobStatus
  languageDetected : Option String
  errorMessage : Option String
  completedAt : Bool
deriving DecidableEq, Repr

/-- An `audioFile` row (fields the services touch). -/
structure AudioFile where
  id : Nat
  orgId : String
  storagePath : String
  durationSeconds : Option Rat
deriving DecidableEq, Repr

/-- A `transcription` row. -/
structure TranscriptionRow where
  sttJobId : Nat
  text : String
  language : String
  confidence : Rat
deriving DecidableEq, Repr

/-- A `usageRecord` row; `jobId` is the job id placed in `metadata`. -/
structure UsageRecord where
  orgId : String
  apiKeyId : Option String
  type : String
  units : Rat
  jobId : Nat
deriving DecidableEq, Repr

/-- The storage state threaded through the services. -/
structure Store where
  nextId : Nat
  ttsJobs : List TtsJob
  sttJobs : List SttJob
  audioFiles : List AudioFile
  transcriptions : List TranscriptionRow
  usageRecords : List UsageRecord
deriving DecidableEq, Repr

/-- The initially empty storage state. -/
def Store.empty : Store := ⟨0, [], [], [], [], []⟩

/-! ## ML TTS client response (`mlTtsClient.service.ts`)

`mlTtsClient.synthesize` returns `{ audioPath, duration, status, meta }`; a
network/timeout failure or non-2xx HTTP reply from axios is a thrown error.
`meta.error` and a numeric `meta.char_count ?? meta.characters ?? meta.charCount`
are the parts of `meta` the TTS service reads; we carry them as fields
(`none` = absent or not parseable as a finite number). -/

/-- Parsed reply of the remote TTS service. -/
structure MlTtsResponse where
  audioPath : Option String
  duration : Option Rat
  status : String
  metaError : Option String
  metaCharCount : Option Rat
deriving DecidableEq, Repr

/-- `resolveCharacterUnits(text, meta)`: the parsed numeric char count from
`meta` when available, else `text.length`. -/
def resolveCharacterUnits (text : String) (metaCharCount : Option Rat) : Rat :=
  match metaCharCount with
  | some n => n
  | none => (text.length : Rat)

/-! ## TTS service (`tts.service.ts`) -/

/-- Inputs of `TtsService.synthesize`. -/
structure SynthesizeInput where
  orgId : String
  userId : Option String
  apiKeyId : Option String
  text : String
  language : String
  voiceId : Option String
  emotion : Option String
  speed : Option Rat
deriving DecidableEq, Repr

/-- Value returned by `TtsService.synthesize`. -/
structure TtsSynthesizeResult where
  jobId : Nat
  status : JobStatus
  audioUrl : Option String
  duration : Option Rat
deriving DecidableEq, Repr

/-- Environment of one `TtsService.synthesize` run: the provider outcome
(`.error e` = the awaited `mlTtsClient.synthesize` call throws `e`), and
failure injections for each prisma call (`none` = the call succeeds). -/
structure TtsEnv where
  provider : Except JsError MlTtsResponse
  jobCreateError : Option String
  audioCreateError : Option String
  completeUpdateError : Option String
  usageCreateError : Option String
  failUpdateError : Option String
deriving Repr

/-- A `TtsEnv` in which every call succeeds and the provider returns `r`. -/
def TtsEnv.allOk (r : MlTtsResponse) : TtsEnv :=
  ⟨.ok r, none, none, none, none, none⟩

/-- `prisma.ttsJob.update({status: failed, errorMessage})` on the job `jobId`. -/
def setTtsJobFailed (jobId : Nat) (msg : String) (jobs : List TtsJob) :
    List TtsJob :=
  jobs.map fun j =>
    if j.id = jobId then { j with status := .failed, errorMessage := some msg }
    else j

/-- `prisma.ttsJob.update({status: completed, resultAudioFileId, completedAt})`. -/
def setTtsJobCompleted (jobId fileId : Nat) (jobs : List TtsJob) :
    List TtsJob :=
  jobs.map fun j =>
    if j.id = jobId then
      { j with status := .completed, resultAudioFileId := some fileId,
               completedAt := true }
    else j

/-- The `try` block of `TtsService.synthesize` (provider call through usage
record); on a throw it returns the error together with the state at the throw
point, so the `catch` can run against that state. -/
def ttsTryBody (env : TtsEnv) (input : SynthesizeInput) (jobId : Nat)
    (st : Store) : Except (JsError × Store) (TtsSynthesizeResult × Store) :=
  match env.provider with
  | .error e => .error (e, st)
  | .ok r =>
    -- pipelineSucceeded = status?.toLowerCase() === 'success' && Boolean(audioPath)
    let pipelineSucceeded := jsToLower r.status = "success" && jsTruthyStr r.audioPath
    if !pipelineSucceeded || !jsTruthyStr r.audioPath then
      .error (⟨jsOrStr r.metaError "TTS synthesis failed", none⟩, st)
    else
      let path := r.audioPath.getD ""   -- guarded: audioPath is a nonempty string
      match env.audioCreateError with
      | some m => .error (⟨m, none⟩, st)
      | none =>
        let fileId := st.nextId
        let st :=
          { st with nextId := st.nextId + 1
                    audioFiles := st.audioFiles ++
                      [⟨fileId, input.orgId, path, r.duration⟩] }
        match env.completeUpdateError with
        | some m => .error (⟨m, none⟩, st)
        | none =>
          let st := { st with ttsJobs := setTtsJobCompleted jobId fileId st.ttsJobs }
          let units := resolveCharacterUnits input.text r.metaCharCount
          match env.usageCreateError with
          | some m => .error (⟨m, none⟩, st)
          | none =>
            let st :=
              { st with usageRecords := st.usageRecords ++
                  [⟨input.orgId, input.apiKeyId, "tts", units, jobId⟩] }
            .ok (⟨jobId, .completed, some path, r.duration⟩, st)

/-- `TtsService.synthesize`: create the job in `processing`, run the try
block, and on a throw run the catch block (mark the job `failed` with the
error's message, then rethrow; if that update itself throws, its error
propagates instead and the job is left untouched). -/
def ttsSynthesize (env : TtsEnv) (input : SynthesizeInput) (st : Store) :
    Except JsError TtsSynthesizeResult × Store :=
  match env.jobCreateError with
  | some m => (.error ⟨m, none⟩, st)
  | none =>
    let jobId := st.nextId
    let st1 :=
      { st with nextId := st.nextId + 1
                ttsJobs := st.ttsJobs ++
                  [⟨jobId, input.orgId, input.userId, input.apiKeyId, input.text,
                    input.language, input.voiceId, input.emotion, input.speed,
                    .processing, none, none, false⟩] }
    match ttsTryBody env input jobId st1 with
    | .ok (res, st2) => (.ok res, st2)
    | .error (e, st2) =>
      match env.failUpdateError with
      | some m => (.error ⟨m, none⟩, st2)
      | none => (.error e, { st2 with ttsJobs := setTtsJobFailed jobId e.message st2.ttsJobs })

/-- One batch item (the per-item fields of the request payload). -/
structure TtsBatchItem where
  text : String
  language : String
  voiceId : Option String
  emotion : Option String
  speed : Option Rat
deriving DecidableEq, Repr

/-- The org context `synthesizeBatch` spreads over every item. -/
structure OrgContext where
  orgId : String
  userId : Option String
  apiKeyId : Option String
deriving DecidableEq, Repr

/-- Lift a batch item to a full `SynthesizeInput` under an org context. -/
def TtsBatchItem.toInput (ctx : OrgContext) (item : TtsBatchItem) :
    SynthesizeInput :=
  ⟨ctx.orgId, ctx.userId, ctx.apiKeyId, item.text, item.language, item.voiceId,
   item.emotion, item.speed⟩

/-- `TtsService.synthesizeBatch`: a sequential `for … of` loop of awaited
`synthesize` calls with no per-item catch — the first rejected call makes the
whole batch reject.  `envs` supplies the environment of each call in order. -/
def ttsSynthesizeBatch (envs : List TtsEnv) (ctx : OrgContext)
    (items : List TtsBatchItem) (st : Store) :
    Except JsError (List TtsSynthesizeResult) × Store :=
  match envs, items with
  | env :: envs', item :: items' =>
    match ttsSynthesize env (item.toInput ctx) st with
    | (.ok res, st') =>
      match ttsSynthesizeBatch envs' ctx items' st' with
      | (.ok ress, st'') => (.ok (res :: ress), st'')
      | (.error e, st'') => (.error e, st'')
    | (.error e, st') => (.error e, st')
  | _, _ => (.ok [], st)

/-! ## STT service (`stt.service.ts`)

`SttService.transcribe` uploads the audio, creates the `audioFile` and the
`sttJob` (status `processing`), calls the ML client, stores the transcription,
derives the billable duration with `deriveDurationSeconds`, conditionally
updates the audio file, marks the job `completed` and appends the usage
record; the catch marks the job `failed` and rethrows. -/

/-- One word timestamp `{ start, end, word }` of the ML reply. -/
structure WordTimestamp where
  start : Rat
  «end» : Rat
  word : String
deriving DecidableEq, Repr

/-- Parsed reply of the remote STT service.  `metaDurationSeconds` is
`Number(meta?.duration_seconds)` when that is a (finite) number, `none` when
the key is absent or `Number(...)` is `NaN`. -/
structure MlSttResult where
  text : String
  language : String
  confidence : Rat
  timestamps : List WordTimestamp
  metaDurationSeconds : Option Rat
  modelUsed : Option String
deriving DecidableEq, Repr

/-- `deriveDurationSeconds(mlResponse)`: the parsed `meta.duration_seconds`
when it is a number `> 0`, else the `end` of the last word timestamp, else
`undefined`. -/
def deriveDurationSeconds (r : MlSttResult) : Option Rat :=
  match r.metaDurationSeconds with
  | some d => if 0 < d then some d else (r.timestamps.getLast?).map (·.«end»)
  | none => (r.timestamps.getLast?).map (·.«end»)

/-- JS truthiness of `number | undefined` (`undefined` and `0` are falsy). -/
def jsTruthyNum : Option Rat → Bool
  | none => false
  | some q => q ≠ 0

/-- Inputs of `SttService.transcribe`. -/
structure TranscribeInput where
  orgId : String
  userId : Option String
  apiKeyId : Option String
  languageHint : Option String
  fileName : String
  mimeType : String
  sizeBytes : Nat
deriving DecidableEq, Repr

/-- Environment of one `SttService.transcribe` run, analogous to `TtsEnv`:
the provider outcome plus failure injections for the storage calls in program
order. -/
structure SttEnv where
  uploadError : Option String
  audioCreateError : Option String
  jobCreateError : Option String
  provider : Except JsError MlSttResult
  transcriptionCreateError : Option String
  audioUpdateError : Option String
  completeUpdateError : Option String
  usageCreateError : Option String
  failUpdateError : Option String
deriving Repr

/-- An `SttEnv` in which every call succeeds and the provider returns `r`. -/
def SttEnv.allOk (r : MlSttResult) : SttEnv :=
  ⟨none, none, none, .ok r, none, none, none, none, none⟩

/-- `prisma.sttJob.update({status: failed, errorMessage})`. -/
def setSttJobFailed (jobId : Nat) (msg : String) (jobs : List SttJob) :
    List SttJob :=
  jobs.map fun j =>
    if j.id = jobId then { j with status := .failed, errorMessage := some msg }
    else j

/-- `prisma.sttJob.update({status: completed, languageDetected, modelUsed,
completedAt})`; `modelUsed` is `mlResponse.modelUsed || job.modelUsed`. -/
def setSttJobCompleted (jobId : Nat) (language : String)
    (modelUsed : Option String) (jobs : List SttJob) : List SttJob :=
  jobs.map fun j =>
    if j.id = jobId then
      { j with status := .completed, languageDetected := some language,
               modelUsed := jsOrStr modelUsed j.modelUsed, completedAt := true }
    else j

/-- `prisma.audioFile.update({ durationSeconds })`. -/
def setAudioDuration (fileId : Nat) (d : Rat) (files : List AudioFile) :
    List AudioFile :=
  files.map fun f =>
    if f.id = fileId then { f with durationSeconds := some d } else f

/-- Job-completion update and usage append: the shared tail of the try block
of `SttService.transcribe` (after the conditional `audioFile` update). -/
def sttAfterAudio (env : SttEnv) (input : TranscribeInput) (jobId : Nat)
    (durationSeconds : Option Rat) (r : MlSttResult) (st : Store) :
    Except (JsError × Store) (SttJob × Store) :=
  match env.completeUpdateError with
  | some m => .error (⟨m, none⟩, st)
  | none =>
    let st :=
      { st with sttJobs := setSttJobCompleted jobId r.language r.modelUsed st.sttJobs }
    match env.usageCreateError with
    | some m => .error (⟨m, none⟩, st)
    | none =>
      let st :=
        { st with usageRecords := st.usageRecords ++
            [⟨input.orgId, input.apiKeyId, "stt", durationSeconds.getD 0, jobId⟩] }
      match st.sttJobs.find? (fun j => j.id = jobId) with
      | some job => .ok (job, st)
      | none => .ok (⟨jobId, input.orgId, input.userId, input.apiKeyId, 0,
          "stt_pipeline_pending", .completed, some r.language, none, true⟩, st)

/-- The `try` block of `SttService.transcribe` (provider call through usage
record), returning the throw-point state on an error. -/
def sttTryBody (env : SttEnv) (input : TranscribeInput) (fileId jobId : Nat)
    (st : Store) : Except (JsError × Store) (SttJob × Store) :=
  match env.provider with
  | .error e => .error (e, st)
  | .ok r =>
    match env.transcriptionCreateError with
    | some m => .error (⟨m, none⟩, st)
    | none =>
      let st :=
        { st with transcriptions := st.transcriptions ++
            [⟨jobId, r.text, r.language, r.confidence⟩] }
      let durationSeconds := deriveDurationSeconds r
      -- if (durationSeconds) { await prisma.audioFile.update(...) }
      if jsTruthyNum durationSeconds then
        match env.audioUpdateError with
        | some m => .error (⟨m, none⟩, st)
        | none =>
          let st :=
            { st with audioFiles :=
                setAudioDuration fileId (durationSeconds.getD 0) st.audioFiles }
          sttAfterAudio env input jobId durationSeconds r st
      else
        sttAfterAudio env input jobId durationSeconds r st

/-- `SttService.transcribe`: upload, `audioFile` create, `sttJob` create
(status `processing`, `modelUsed: 'stt_pipeline_pending'`), then the try block
with the catch marking the job `failed` (and rethrowing). -/
def sttTranscribe (env : SttEnv) (input : TranscribeInput) (st : Store) :
    Except JsError SttJob × Store :=
  match env.uploadError with
  | some m => (.error ⟨m, none⟩, st)
  | none =>
    match env.audioCreateError with
    | some m => (.error ⟨m, none⟩, st)
    | none =>
      let fileId := st.nextId
      let st1 :=
        { st with nextId := st.nextId + 1
                  audioFiles := st.audioFiles ++
                    [⟨fileId, input.orgId, "stt-input/" ++ input.orgId ++ "/" ++ input.fileName, none⟩] }
      match env.jobCreateError with
      | some m => (.error ⟨m, none⟩, st1)
      | none =>
        let jobId := st1.nextId
        let st2 :=
          { st1 with nextId := st1.nextId + 1
                     sttJobs := st1.sttJobs ++
                       [⟨jobId, input.orgId, input.userId, input.apiKeyId, fileId,
                         "stt_pipeline_pending", .processing, none, none, false⟩] }
        match sttTryBody env input fileId jobId st2 with
        | .ok (job, st3) => (.ok job, st3)
        | .error (e, st3) =>
          match env.failUpdateError with
          | some m => (.error ⟨m, none⟩, st3)
          | none =>
            (.error e, { st3 with sttJobs := setSttJobFailed jobId e.message st3.sttJobs })

/-! ## Claims about the credential resolver -/

/-- C5: for every static API key whose stored record has a revocation time
set, credential resolution fails with the 401 `Invalid API key` error — even
though the presented key's digest matches the stored digest (the lookup
hypothesis states exactly that the stored digest equals the digest of the
presented key) — and the error middleware turns it into an HTTP 401. -/
theorem revoked_key_rejected (hashKey : String → String) (now : Nat)
    (lastUsedError : Option String) (raw : String) (keys : List ApiKeyRecord)
    (auth : AuthState) (rec : ApiKeyRecord) (t : Nat)
    (hfind : keys.find? (fun k => k.keyHash = hashKey (jsTrim raw)) = some rec)
    (hrev : rec.revokedAt = some t) :
    attachApiKey hashKey now lastUsedError (some raw) keys auth =
      .error ⟨"Invalid API key", some 401⟩ ∧
    (errorHandler ⟨"Invalid API key", some 401⟩).httpStatus = 401 := by
  refine ⟨?_, rfl⟩
  simp only [attachApiKey, hfind, hrev, Option.isSome_some, if_true]

/-- Witness for `revoked_key_rejected` at a concrete revoked key. -/
theorem revoked_key_rejected_witness :
    attachApiKey (fun s => s ++ "#h") 100 none (some "secret")
      [⟨"k1", "org1", "secret#h", "prod key", ["tts"], none, some 5, none⟩]
      AuthState.empty = .error ⟨"Invalid API key", some 401⟩ ∧
    (errorHandler ⟨"Invalid API key", some 401⟩).httpStatus = 401 :=
  revoked_key_rejected (fun s => s ++ "#h") 100 none "secret"
    [⟨"k1", "org1", "secret#h", "prod key", ["tts"], none, some 5, none⟩]
    AuthState.empty
    ⟨"k1", "org1", "secret#h", "prod key", ["tts"], none, some 5, none⟩ 5
    (by decide) rfl

/-- C6: for every bearer token that passes signature/expiry verification but
whose subject is absent from storage, or whose subject's stored tenant id
differs from the token's tenant claim, resolution fails with the 401
`Invalid authentication token` error (so no identity is attached), and the
error middleware turns it into an HTTP 401. -/
theorem jwt_tenant_mismatch_rejected (verify : String → Except String JwtPayload)
    (h : String) (users : List UserRecord) (auth : AuthState)
    (payload : JwtPayload)
    (hscheme : (jsSplitSpace h).getD 0 "" = "Bearer")
    (htok : (jsSplitSpace h).getD 1 "" ≠ "")
    (hverify : verify ((jsSplitSpace h).getD 1 "") = .ok payload)
    (hbad : ∀ u, users.find? (fun u => u.id = payload.sub) = some u →
      u.orgId ≠ payload.orgId) :
    attachJwtToRequest verify (some h) users auth =
      .error ⟨"Invalid authentication token", some 401⟩ ∧
    (errorHandler ⟨"Invalid authentication token", some 401⟩).httpStatus = 401 := by
  refine ⟨?_, rfl⟩
  unfold attachJwtToRequest
  simp only [hscheme, hverify]
  have htok' : ¬(jsSplitSpace h)[1]?.getD "" = "" := by
    simpa [List.getD] using htok
  rw [if_neg (by simp [htok'])]
  cases hu : users.find? (fun u => u.id = payload.sub) with
  | none => simp
  | some u => simp [hbad u hu]

/-- Witness for `jwt_tenant_mismatch_rejected`: a verified token whose subject
was moved to another tenant. -/
theorem jwt_tenant_mismatch_rejected_witness :
    attachJwtToRequest
      (fun _ => .ok ⟨"u1", "org-old", "owner", "a@b.c"⟩)
      (some "Bearer tok123")
      [⟨"u1", "org-new", "a@b.c", "owner"⟩] AuthState.empty =
      .error ⟨"Invalid authentication token", some 401⟩ ∧
    (errorHandler ⟨"Invalid authentication token", some 401⟩).httpStatus = 401 :=
  jwt_tenant_mismatch_rejected (fun _ => .ok ⟨"u1", "org-old", "owner", "a@b.c"⟩)
    "Bearer tok123" [⟨"u1", "org-new", "a@b.c", "owner"⟩] AuthState.empty
    ⟨"u1", "org-old", "owner", "a@b.c"⟩ (by decide) (by decide) rfl
    (by intro u hu; simp at hu; subst hu; decide)

/-- C10: revoking an existing, active key of the caller's tenant sets its
revocation time; revoking it again (at any later clock value) returns the
record unchanged with the original revocation time preserved, and leaves the
table unchanged; revoking a key the tenant-scoped lookup cannot find (absent
id, or a key of a different tenant) fails with the 404 `API key not found`
error. -/
theorem apiKeyRevoke_idempotent (now now2 : Nat) (orgId keyId : String)
    (keys : List ApiKeyRecord) (rec : ApiKeyRecord)
    (hfind : keys.find? (fun k => k.id = keyId ∧ k.orgId = orgId) = some rec)
    (hactive : rec.revokedAt = none) :
    apiKeyRevoke now orgId keyId keys =
      .ok ({ rec with revokedAt := some now },
        keys.map fun k =>
          if k.id = keyId then { k with revokedAt := some now } else k) ∧
    apiKeyRevoke now2 orgId keyId
        (keys.map fun k =>
          if k.id = keyId then { k with revokedAt := some now } else k) =
      .ok ({ rec with revokedAt := some now },
        keys.map fun k =>
          if k.id = keyId then { k with revokedAt := some now } else k) ∧
    (∀ ks : List ApiKeyRecord,
      ks.find? (fun k => k.id = keyId ∧ k.orgId = orgId) = none →
      apiKeyRevoke now orgId keyId ks = .error ⟨"API key not found", some 404⟩) := by
  have hrec := List.find?_some hfind
  simp only [decide_eq_true_eq] at hrec
  refine ⟨?_, ?_, ?_⟩
  · unfold apiKeyRevoke
    rw [hfind]
    simp [hactive]
  · have hpf :
        ((fun k : ApiKeyRecord => decide (k.id = keyId ∧ k.orgId = orgId)) ∘
          (fun k : ApiKeyRecord =>
            if k.id = keyId then { k with revokedAt := some now } else k)) =
        (fun k : ApiKeyRecord => decide (k.id = keyId ∧ k.orgId = orgId)) := by
      funext k
      by_cases hk : k.id = keyId <;> simp [hk]
    unfold apiKeyRevoke
    rw [List.find?_map, hpf, hfind]
    simp [hrec.1]
  · intro ks hnone
    unfold apiKeyRevoke
    rw [hnone]

/-- Witness for `apiKeyRevoke_idempotent`: key `a` of `org1` is revoked at
time 10, re-revoked at time 99 without change, and revoking it under `org2`
(a different tenant) yields the 404 error. -/
theorem apiKeyRevoke_idempotent_witness :
    apiKeyRevoke 10 "org1" "a"
      [⟨"a", "org1", "h1", "k1", ["tts"], none, none, none⟩,
       ⟨"b", "org2", "h2", "k2", ["stt"], none, none, none⟩] =
      .ok (⟨"a", "org1", "h1", "k1", ["tts"], none, some 10, none⟩,
        [⟨"a", "org1", "h1", "k1", ["tts"], none, some 10, none⟩,
         ⟨"b", "org2", "h2", "k2", ["stt"], none, none, none⟩]) ∧
    apiKeyRevoke 99 "org1" "a"
      [⟨"a", "org1", "h1", "k1", ["tts"], none, some 10, none⟩,
       ⟨"b", "org2", "h2", "k2", ["stt"], none, none, none⟩] =
      .ok (⟨"a", "org1", "h1", "k1", ["tts"], none, some 10, none⟩,
        [⟨"a", "org1", "h1", "k1", ["tts"], none, some 10, none⟩,
         ⟨"b", "org2", "h2", "k2", ["stt"], none, none, none⟩]) ∧
    apiKeyRevoke 10 "org1" "a"
      [⟨"a", "org2", "h1", "k1", ["tts"], none, none, none⟩] =
      .error ⟨"API key not found", some 404⟩ := by
  have h := apiKeyRevoke_idempotent 10 99 "org1" "a"
    [⟨"a", "org1", "h1", "k1", ["tts"], none, none, none⟩,
     ⟨"b", "org2", "h2", "k2", ["stt"], none, none, none⟩]
    ⟨"a", "org1", "h1", "k1", ["tts"], none, none, none⟩ (by decide) rfl
  refine ⟨?_, ?_, h.2.2 _ (by decide)⟩
  · have h1 := h.1
    simpa using h1
  · have h2 := h.2.1
    simpa using h2

/-! ## Run lemmas for the orchestrator

The prisma updates are modelled as maps over whole tables keyed by row id, so
the lemmas below assume the ambient well-formedness invariant that every
stored row id is below the id counter (true of every store the services ever
build from `Store.empty`). -/

/-- Ids of all job and file rows are below the id counter. -/
def Store.wf (st : Store) : Prop :=
  (∀ j ∈ st.ttsJobs, j.id < st.nextId) ∧
  (∀ j ∈ st.sttJobs, j.id < st.nextId) ∧
  (∀ f ∈ st.audioFiles, f.id < st.nextId)

instance (st : Store) : Decidable st.wf := by
  unfold Store.wf
  infer_instance

theorem map_id_of_forall {α : Type} (l : List α) (f : α → α)
    (h : ∀ a ∈ l, f a = a) : l.map f = l := by
  induction l with
  | nil => rfl
  | cons a l ih =>
    simp only [List.map_cons, h a (by simp)]
    rw [ih fun x hx => h x (by simp [hx])]

theorem setTtsJobFailed_append (jobId : Nat) (msg : String)
    (old : List TtsJob) (j : TtsJob) (h : ∀ x ∈ old, x.id ≠ jobId)
    (hj : j.id = jobId) :
    setTtsJobFailed jobId msg (old ++ [j]) =
      old ++ [{ j with status := .failed, errorMessage := some msg }] := by
  unfold setTtsJobFailed
  rw [List.map_append]
  congr 1
  · exact map_id_of_forall _ _ fun x hx => by simp [h x hx]
  · simp [hj]

theorem setTtsJobCompleted_append (jobId fileId : Nat)
    (old : List TtsJob) (j : TtsJob) (h : ∀ x ∈ old, x.id ≠ jobId)
    (hj : j.id = jobId) :
    setTtsJobCompleted jobId fileId (old ++ [j]) =
      old ++ [{ j with status := .completed, resultAudioFileId := some fileId, completedAt := true }] := by
  unfold setTtsJobCompleted
  rw [List.map_append]
  congr 1
  · exact map_id_of_forall _ _ fun x hx => by simp [h x hx]
  · simp [hj]

theorem setSttJobFailed_append (jobId : Nat) (msg : String)
    (old : List SttJob) (j : SttJob) (h : ∀ x ∈ old, x.id ≠ jobId)
    (hj : j.id = jobId) :
    setSttJobFailed jobId msg (old ++ [j]) =
      old ++ [{ j with status := .failed, errorMessage := some msg }] := by
  unfold setSttJobFailed
  rw [List.map_append]
  congr 1
  · exact map_id_of_forall _ _ fun x hx => by simp [h x hx]
  · simp [hj]

theorem setSttJobCompleted_append (jobId : Nat) (language : String)
    (modelUsed : Option String) (old : List SttJob) (j : SttJob)
    (h : ∀ x ∈ old, x.id ≠ jobId) (hj : j.id = jobId) :
    setSttJobCompleted jobId language modelUsed (old ++ [j]) =
      old ++ [{ j with status := .completed, languageDetected := some language, modelUsed := jsOrStr modelUsed j.modelUsed, completedAt := true }] := by
  unfold setSttJobCompleted
  rw [List.map_append]
  congr 1
  · exact map_id_of_forall _ _ fun x hx => by simp [h x hx]
  · simp [hj]

theorem setAudioDuration_append (fileId : Nat) (d : Rat)
    (old : List AudioFile) (f : AudioFile) (h : ∀ x ∈ old, x.id ≠ fileId)
    (hf : f.id = fileId) :
    setAudioDuration fileId d (old ++ [f]) =
      old ++ [{ f with durationSeconds := some d }] := by
  unfold setAudioDuration
  rw [List.map_append]
  congr 1
  · exact map_id_of_forall _ _ fun x hx => by simp [h x hx]
  · simp [hf]

/-- A fully successful `TtsService.synthesize` run: the provider reply is a
success with an audio path, every prisma call succeeds.  The run returns the
completed result and appends one completed job, one audio file and one usage
record. -/
theorem ttsSynthesize_ok_run (env : TtsEnv) (r : MlTtsResponse)
    (input : SynthesizeInput) (st : Store)
    (hp : env.provider = .ok r)
    (hs : (jsToLower r.status = "success" && jsTruthyStr r.audioPath) = true)
    (h1 : env.jobCreateError = none) (h2 : env.audioCreateError = none)
    (h3 : env.completeUpdateError = none) (h4 : env.usageCreateError = none)
    (hwf : st.wf) :
    ttsSynthesize env input st =
      (.ok ⟨st.nextId, .completed, some (r.audioPath.getD ""), r.duration⟩,
       { nextId := st.nextId + 1 + 1,
         ttsJobs := st.ttsJobs ++
           [⟨st.nextId, input.orgId, input.userId, input.apiKeyId, input.text,
             input.language, input.voiceId, input.emotion, input.speed,
             .completed, none, some (st.nextId + 1), true⟩],
         sttJobs := st.sttJobs,
         audioFiles := st.audioFiles ++
           [⟨st.nextId + 1, input.orgId, r.audioPath.getD "", r.duration⟩],
         transcriptions := st.transcriptions,
         usageRecords := st.usageRecords ++
           [⟨input.orgId, input.apiKeyId, "tts",
             resolveCharacterUnits input.text r.metaCharCount, st.nextId⟩] }) := by
  have hstat : decide (jsToLower r.status = "success") = true :=
    (Bool.and_eq_true _ _ |>.mp hs).1
  have hpath : jsTruthyStr r.audioPath = true :=
    (Bool.and_eq_true _ _ |>.mp hs).2
  unfold ttsSynthesize ttsTryBody
  rw [h1, hp, h2, h3, h4]
  simp only [hstat, hpath, Bool.and_true, Bool.and_self, Bool.not_true,
    Bool.or_false, Bool.false_or, Bool.or_self, Bool.false_eq_true, if_false]
  rw [setTtsJobCompleted_append _ _ _ _ (fun x hx => Nat.ne_of_lt (hwf.1 x hx)) rfl]

/-- A `TtsService.synthesize` run in which the awaited provider call throws
`e` and the prisma calls succeed: the error is rethrown after the job is
marked `failed` with the thrown message; no audio file and no usage record
are written. -/
theorem ttsSynthesize_thrown_run (env : TtsEnv) (e : JsError)
    (input : SynthesizeInput) (st : Store)
    (hp : env.provider = .error e)
    (h1 : env.jobCreateError = none) (h5 : env.failUpdateError = none)
    (hwf : st.wf) :
    ttsSynthesize env input st =
      (.error e,
       { nextId := st.nextId + 1,
         ttsJobs := st.ttsJobs ++
           [⟨st.nextId, input.orgId, input.userId, input.apiKeyId, input.text,
             input.language, input.voiceId, input.emotion, input.speed,
             .failed, some e.message, none, false⟩],
         sttJobs := st.sttJobs,
         audioFiles := st.audioFiles,
         transcriptions := st.transcriptions,
         usageRecords := st.usageRecords }) := by
  unfold ttsSynthesize ttsTryBody
  rw [h1, hp, h5]
  simp only
  rw [setTtsJobFailed_append _ _ _ _ (fun x hx => Nat.ne_of_lt (hwf.1 x hx)) rfl]

/-- A `TtsService.synthesize` run in which the provider reply reports a
non-success status (or no audio path): the service throws an error whose
message is `meta.error || 'TTS synthesis failed'`, marks the job `failed`
and rethrows; no audio file and no usage record are written. -/
theorem ttsSynthesize_pipelineFail_run (env : TtsEnv) (r : MlTtsResponse)
    (input : SynthesizeInput) (st : Store)
    (hp : env.provider = .ok r)
    (hs : (jsToLower r.status = "success" && jsTruthyStr r.audioPath) = false)
    (h1 : env.jobCreateError = none) (h5 : env.failUpdateError = none)
    (hwf : st.wf) :
    ttsSynthesize env input st =
      (.error ⟨jsOrStr r.metaError "TTS synthesis failed", none⟩,
       { nextId := st.nextId + 1,
         ttsJobs := st.ttsJobs ++
           [⟨st.nextId, input.orgId, input.userId, input.apiKeyId, input.text,
             input.language, input.voiceId, input.emotion, input.speed,
             .failed, some (jsOrStr r.metaError "TTS synthesis failed"), none,
             false⟩],
         sttJobs := st.sttJobs,
         audioFiles := st.audioFiles,
         transcriptions := st.transcriptions,
         usageRecords := st.usageRecords }) := by
  unfold ttsSynthesize ttsTryBody
  rw [h1, hp, h5]
  simp only [hs, Bool.not_false, Bool.true_or, if_pos]
  rw [setTtsJobFailed_append _ _ _ _ (fun x hx => Nat.ne_of_lt (hwf.1 x hx)) rfl]

theorem find?_append_of_left_none {α : Type} (l₁ l₂ : List α) (p : α → Bool)
    (h : ∀ x ∈ l₁, p x = false) : (l₁ ++ l₂).find? p = l₂.find? p := by
  induction l₁ with
  | nil => rfl
  | cons a l ih =>
    simp only [List.cons_append, List.find?_cons, h a (by simp)]
    exact ih fun x hx => h x (by simp [hx])

/-- A fully successful `SttService.transcribe` run: the provider reply is `r`
and every storage call succeeds.  One audio file (its duration filled in only
when the derived duration is truthy), one transcription, one completed job and
one usage record with `durationSeconds ?? 0` units are appended, and the
completed job is returned. -/
theorem sttTranscribe_ok_run (env : SttEnv) (r : MlSttResult)
    (input : TranscribeInput) (st : Store)
    (hp : env.provider = .ok r)
    (h1 : env.uploadError = none) (h2 : env.audioCreateError = none)
    (h3 : env.jobCreateError = none) (h4 : env.transcriptionCreateError = none)
    (h5 : env.audioUpdateError = none) (h6 : env.completeUpdateError = none)
    (h7 : env.usageCreateError = none) (hwf : st.wf) :
    sttTranscribe env input st =
      (.ok ⟨st.nextId + 1, input.orgId, input.userId, input.apiKeyId, st.nextId,
         jsOrStr r.modelUsed "stt_pipeline_pending", .completed,
         some r.language, none, true⟩,
       { nextId := st.nextId + 1 + 1,
         ttsJobs := st.ttsJobs,
         sttJobs := st.sttJobs ++
           [⟨st.nextId + 1, input.orgId, input.userId, input.apiKeyId, st.nextId,
             jsOrStr r.modelUsed "stt_pipeline_pending", .completed,
             some r.language, none, true⟩],
         audioFiles := st.audioFiles ++
           [⟨st.nextId, input.orgId,
             "stt-input/" ++ input.orgId ++ "/" ++ input.fileName,
             if jsTruthyNum (deriveDurationSeconds r) then
               some ((deriveDurationSeconds r).getD 0)
             else none⟩],
         transcriptions := st.transcriptions ++
           [⟨st.nextId + 1, r.text, r.language, r.confidence⟩],
         usageRecords := st.usageRecords ++
           [⟨input.orgId, input.apiKeyId, "stt",
             (deriveDurationSeconds r).getD 0, st.nextId + 1⟩] }) := by
  have hids : ∀ x ∈ st.sttJobs, x.id ≠ st.nextId + 1 :=
    fun x hx => Nat.ne_of_lt (Nat.lt_succ_of_lt (hwf.2.1 x hx))
  have hfile : ∀ x ∈ st.audioFiles, x.id ≠ st.nextId :=
    fun x hx => Nat.ne_of_lt (hwf.2.2 x hx)
  unfold sttTranscribe sttTryBody sttAfterAudio
  rw [h1, h2, h3, hp, h4, h6, h7]
  by_cases hd : jsTruthyNum (deriveDurationSeconds r) = true
  · simp only [hd, if_true, h5]
    rw [setAudioDuration_append _ _ _ _ hfile rfl,
      setSttJobCompleted_append _ _ _ _ _ hids rfl,
      find?_append_of_left_none _ _ _ (fun x hx => by simp [hids x hx])]
    simp
  · simp only [Bool.not_eq_true] at hd
    simp only [hd, Bool.false_eq_true, if_false]
    rw [setSttJobCompleted_append _ _ _ _ _ hids rfl,
      find?_append_of_left_none _ _ _ (fun x hx => by simp [hids x hx])]
    simp

/-- An `SttService.transcribe` run in which the awaited provider call throws
`e` and every storage call succeeds: the audio file and the job are created,
the job is marked `failed` with the thrown message, the error is rethrown,
and no transcription and no usage record are written. -/
theorem sttTranscribe_thrown_run (env : SttEnv) (e : JsError)
    (input : TranscribeInput) (st : Store)
    (hp : env.provider = .error e)
    (h1 : env.uploadError = none) (h2 : env.audioCreateError = none)
    (h3 : env.jobCreateError = none) (h8 : env.failUpdateError = none)
    (hwf : st.wf) :
    sttTranscribe env input st =
      (.error e,
       { nextId := st.nextId + 1 + 1,
         ttsJobs := st.ttsJobs,
         sttJobs := st.sttJobs ++
           [⟨st.nextId + 1, input.orgId, input.userId, input.apiKeyId, st.nextId,
             "stt_pipeline_pending", .failed, none, some e.message, false⟩],
         audioFiles := st.audioFiles ++
           [⟨st.nextId, input.orgId,
             "stt-input/" ++ input.orgId ++ "/" ++ input.fileName, none⟩],
         transcriptions := st.transcriptions,
         usageRecords := st.usageRecords }) := by
  have hids : ∀ x ∈ st.sttJobs, x.id ≠ st.nextId + 1 :=
    fun x hx => Nat.ne_of_lt (Nat.lt_succ_of_lt (hwf.2.1 x hx))
  unfold sttTranscribe sttTryBody
  rw [h1, h2, h3, hp, h8]
  simp only
  rw [setSttJobFailed_append _ _ _ _ hids rfl]

theorem jsOrStr_ne_empty (a : Option String) (b : String) (hb : b ≠ "") :
    jsOrStr a b ≠ "" := by
  unfold jsOrStr
  cases a with
  | none => exact hb
  | some s =>
    by_cases hs : s = "" <;> simp [hs, hb]

/-! ## Claims about the job orchestrator -/

/-- C2: for every job whose inference-provider call fails — a thrown error
(network fault, timeout, non-2xx reply; axios errors always carry a non-empty
message, taken as a hypothesis here) for either service, or a
provider-reported non-success status for the synthesis service — the
persisted job ends in status `failed` and carries a non-empty error message,
and no usage record is created for it.  The storage calls of the failure path
itself are assumed to succeed. -/
theorem provider_failure_yields_failed_job
    (envT : TtsEnv) (input : SynthesizeInput) (stT : Store)
    (envS : SttEnv) (sin : TranscribeInput) (stS : Store)
    (hTfail : (∃ e, envT.provider = .error e ∧ e.message ≠ "") ∨
      (∃ r, envT.provider = .ok r ∧
        (jsToLower r.status = "success" && jsTruthyStr r.audioPath) = false))
    (hT1 : envT.jobCreateError = none) (hT5 : envT.failUpdateError = none)
    (hwfT : stT.wf)
    (eS : JsError) (hSp : envS.provider = .error eS) (hSe : eS.message ≠ "")
    (hS1 : envS.uploadError = none) (hS2 : envS.audioCreateError = none)
    (hS3 : envS.jobCreateError = none) (hS8 : envS.failUpdateError = none)
    (hwfS : stS.wf) :
    (∃ j : TtsJob, ∃ e : JsError,
      (ttsSynthesize envT input stT).1 = .error e ∧
      (ttsSynthesize envT input stT).2.ttsJobs = stT.ttsJobs ++ [j] ∧
      j.status = .failed ∧ j.errorMessage = some e.message ∧ e.message ≠ "" ∧
      (ttsSynthesize envT input stT).2.usageRecords = stT.usageRecords) ∧
    (∃ j : SttJob,
      (sttTranscribe envS sin stS).1 = .error eS ∧
      (sttTranscribe envS sin stS).2.sttJobs = stS.sttJobs ++ [j] ∧
      j.status = .failed ∧ j.errorMessage = some eS.message ∧ eS.message ≠ "" ∧
      (sttTranscribe envS sin stS).2.usageRecords = stS.usageRecords) := by
  constructor
  · rcases hTfail with ⟨e, hp, hne⟩ | ⟨r, hp, hs⟩
    · rw [ttsSynthesize_thrown_run envT e input stT hp hT1 hT5 hwfT]
      exact ⟨_, e, rfl, rfl, rfl, rfl, hne, rfl⟩
    · rw [ttsSynthesize_pipelineFail_run envT r input stT hp hs hT1 hT5 hwfT]
      exact ⟨_, _, rfl, rfl, rfl, rfl,
        jsOrStr_ne_empty r.metaError "TTS synthesis failed" (by decide), rfl⟩
  · rw [sttTranscribe_thrown_run envS eS sin stS hSp hS1 hS2 hS3 hS8 hwfS]
    exact ⟨_, rfl, rfl, rfl, rfl, hSe, rfl⟩

/-- Witness for `provider_failure_yields_failed_job`: a timed-out synthesis
provider call and a timed-out recognition provider call against the empty
store. -/
theorem provider_failure_yields_failed_job_witness :
    (∃ j : TtsJob, ∃ e : JsError,
      (ttsSynthesize ⟨.error ⟨"timeout of 30000ms exceeded", none⟩, none, none, none, none, none⟩
        ⟨"org1", none, some "key1", "hello", "en", none, none, none⟩ Store.empty).1 = .error e ∧
      (ttsSynthesize ⟨.error ⟨"timeout of 30000ms exceeded", none⟩, none, none, none, none, none⟩
        ⟨"org1", none, some "key1", "hello", "en", none, none, none⟩ Store.empty).2.ttsJobs =
        Store.empty.ttsJobs ++ [j] ∧
      j.status = .failed ∧ j.errorMessage = some e.message ∧ e.message ≠ "" ∧
      (ttsSynthesize ⟨.error ⟨"timeout of 30000ms exceeded", none⟩, none, none, none, none, none⟩
        ⟨"org1", none, some "key1", "hello", "en", none, none, none⟩ Store.empty).2.usageRecords =
        Store.empty.usageRecords) ∧
    (∃ j : SttJob,
      (sttTranscribe ⟨none, none, none, .error ⟨"timeout of 30000ms exceeded", none⟩, none, none, none, none, none⟩
        ⟨"org1", none, some "key1", none, "a.wav", "audio/wav", 10⟩ Store.empty).1 =
        .error ⟨"timeout of 30000ms exceeded", none⟩ ∧
      (sttTranscribe ⟨none, none, none, .error ⟨"timeout of 30000ms exceeded", none⟩, none, none, none, none, none⟩
        ⟨"org1", none, some "key1", none, "a.wav", "audio/wav", 10⟩ Store.empty).2.sttJobs =
        Store.empty.sttJobs ++ [j] ∧
      j.status = .failed ∧
      j.errorMessage = some (JsError.mk "timeout of 30000ms exceeded" none).message ∧
      (JsError.mk "timeout of 30000ms exceeded" none).message ≠ "" ∧
      (sttTranscribe ⟨none, none, none, .error ⟨"timeout of 30000ms exceeded", none⟩, none, none, none, none, none⟩
        ⟨"org1", none, some "key1", none, "a.wav", "audio/wav", 10⟩ Store.empty).2.usageRecords =
        Store.empty.usageRecords) :=
  provider_failure_yields_failed_job
    ⟨.error ⟨"timeout of 30000ms exceeded", none⟩, none, none, none, none, none⟩
    ⟨"org1", none, some "key1", "hello", "en", none, none, none⟩ Store.empty
    ⟨none, none, none, .error ⟨"timeout of 30000ms exceeded", none⟩, none, none, none, none, none⟩
    ⟨"org1", none, some "key1", none, "a.wav", "audio/wav", 10⟩ Store.empty
    (Or.inl ⟨⟨"timeout of 30000ms exceeded", none⟩, rfl, by decide⟩)
    rfl rfl (by decide)
    ⟨"timeout of 30000ms exceeded", none⟩ rfl (by decide)
    rfl rfl rfl rfl (by decide)

/-- C4 counterexample: a synthesis job whose provider call succeeded and whose
job row was updated to `completed` is flipped back to `failed` when the
subsequent usage-record insert throws: the catch block of
`TtsService.synthesize` swallows the storage error and overwrites the status.
Concretely: provider success, usage insert throws `usage insert failed` — the
single persisted job ends `failed`, not `completed`. -/
theorem usage_failure_overturn_counterexample :
    ((ttsSynthesize
        ⟨.ok ⟨some "/audio/1.wav", some 2, "success", none, none⟩,
          none, none, none, some "usage insert failed", none⟩
        ⟨"org1", none, some "key1", "hi", "en", none, none, none⟩
        Store.empty).2.ttsJobs.map TtsJob.status = [.failed]) ∧
    ((ttsSynthesize
        ⟨.ok ⟨some "/audio/1.wav", some 2, "success", none, none⟩,
          none, none, none, some "usage insert failed", none⟩
        ⟨"org1", none, some "key1", "hi", "en", none, none, none⟩
        Store.empty).2.ttsJobs.map TtsJob.errorMessage =
      [some "usage insert failed"]) ∧
    ((ttsSynthesize
        ⟨.ok ⟨some "/audio/1.wav", some 2, "success", none, none⟩,
          none, none, none, some "usage insert failed", none⟩
        ⟨"org1", none, some "key1", "hi", "en", none, none, none⟩
        Store.empty).1 = .error ⟨"usage insert failed", none⟩) ∧
    ((ttsSynthesize
        ⟨.ok ⟨some "/audio/1.wav", some 2, "success", none, none⟩,
          none, none, none, some "usage insert failed", none⟩
        ⟨"org1", none, some "key1", "hi", "en", none, none, none⟩
        Store.empty).2.usageRecords = []) := by
  refine ⟨?_, ?_, ?_, ?_⟩ <;> rfl

/-- C4 amended: when the provider call succeeds, the job is updated to
`completed`, and the usage-record insert then throws, the job-level catch
block overturns the job: its final status is `failed` with the storage
error's message stored (the completion artifacts `resultAudioFileId` and
`completedAt` remain set), no usage record exists, and the storage error is
rethrown to the request boundary. -/
theorem usage_failure_overturns_completed_job (env : TtsEnv)
    (r : MlTtsResponse) (m : String) (input : SynthesizeInput) (st : Store)
    (hp : env.provider = .ok r)
    (hs : (jsToLower r.status = "success" && jsTruthyStr r.audioPath) = true)
    (h1 : env.jobCreateError = none) (h2 : env.audioCreateError = none)
    (h3 : env.completeUpdateError = none)
    (h4 : env.usageCreateError = some m)
    (h5 : env.failUpdateError = none) (hwf : st.wf) :
    ttsSynthesize env input st =
      (.error ⟨m, none⟩,
       { nextId := st.nextId + 1 + 1,
         ttsJobs := st.ttsJobs ++
           [⟨st.nextId, input.orgId, input.userId, input.apiKeyId, input.text,
             input.language, input.voiceId, input.emotion, input.speed,
             .failed, some m, some (st.nextId + 1), true⟩],
         sttJobs := st.sttJobs,
         audioFiles := st.audioFiles ++
           [⟨st.nextId + 1, input.orgId, r.audioPath.getD "", r.duration⟩],
         transcriptions := st.transcriptions,
         usageRecords := st.usageRecords }) := by
  have hstat : decide (jsToLower r.status = "success") = true :=
    (Bool.and_eq_true _ _ |>.mp hs).1
  have hpath : jsTruthyStr r.audioPath = true :=
    (Bool.and_eq_true _ _ |>.mp hs).2
  unfold ttsSynthesize ttsTryBody
  rw [h1, hp, h2, h3, h4, h5]
  simp only [hstat, hpath, Bool.and_true, Bool.and_self, Bool.not_true,
    Bool.or_false, Bool.false_or, Bool.or_self, Bool.false_eq_true, if_false]
  rw [setTtsJobCompleted_append _ _ _ _ (fun x hx => Nat.ne_of_lt (hwf.1 x hx)) rfl]
  rw [setTtsJobFailed_append _ _ _ _ (fun x hx => Nat.ne_of_lt (hwf.1 x hx)) rfl]

/-- Witness for `usage_failure_overturns_completed_job` at the inputs of the
counterexample. -/
theorem usage_failure_overturns_completed_job_witness :
    ttsSynthesize
      ⟨.ok ⟨some "/audio/1.wav", some 2, "success", none, none⟩,
        none, none, none, some "usage insert failed", none⟩
      ⟨"org1", none, some "key1", "hi", "en", none, none, none⟩
      Store.empty =
      (.error ⟨"usage insert failed", none⟩,
       { nextId := 0 + 1 + 1,
         ttsJobs := Store.empty.ttsJobs ++
           [⟨0, "org1", none, some "key1", "hi", "en", none, none, none,
             .failed, some "usage insert failed", some (0 + 1), true⟩],
         sttJobs := Store.empty.sttJobs,
         audioFiles := Store.empty.audioFiles ++
           [⟨0 + 1, "org1", (some "/audio/1.wav").getD "", some 2⟩],
         transcriptions := Store.empty.transcriptions,
         usageRecords := Store.empty.usageRecords }) :=
  usage_failure_overturns_completed_job
    ⟨.ok ⟨some "/audio/1.wav", some 2, "success", none, none⟩,
      none, none, none, some "usage insert failed", none⟩
    ⟨some "/audio/1.wav", some 2, "success", none, none⟩
    "usage insert failed"
    ⟨"org1", none, some "key1", "hi", "en", none, none, none⟩
    Store.empty rfl (by decide) rfl rfl rfl rfl rfl (by decide)

/-- C8 counterexample: a raw library error message (an axios connection
failure) thrown by the provider call is stored verbatim on the failed job and
echoed verbatim to the client by the error middleware with HTTP 500 — it is
not replaced by a generic message. -/
theorem error_text_echoed_counterexample :
    ((ttsSynthesize
        ⟨.error ⟨"connect ECONNREFUSED 127.0.0.1:8001", none⟩,
          none, none, none, none, none⟩
        ⟨"org1", none, some "key1", "hi", "en", none, none, none⟩
        Store.empty).2.ttsJobs.map TtsJob.errorMessage =
      [some "connect ECONNREFUSED 127.0.0.1:8001"]) ∧
    ((ttsSynthesize
        ⟨.error ⟨"connect ECONNREFUSED 127.0.0.1:8001", none⟩,
          none, none, none, none, none⟩
        ⟨"org1", none, some "key1", "hi", "en", none, none, none⟩
        Store.empty).1 = .error ⟨"connect ECONNREFUSED 127.0.0.1:8001", none⟩) ∧
    errorHandler ⟨"connect ECONNREFUSED 127.0.0.1:8001", none⟩ =
      ⟨500, "connect ECONNREFUSED 127.0.0.1:8001"⟩ := by
  refine ⟨?_, ?_, ?_⟩ <;> rfl

/-- C8 amended: for every provider error with a non-empty message, the failed
job stores the thrown message verbatim, the error is rethrown unchanged, and
the error middleware returns `err.message` verbatim to the client with status
`err.status || 500` (the generic `Internal Server Error` text is used only
when the message is empty): internal/library exception text below
`ValidationFailure` is echoed, not sanitized. -/
theorem error_text_echoed_to_client (env : TtsEnv) (e : JsError)
    (input : SynthesizeInput) (st : Store)
    (hp : env.provider = .error e) (hne : e.message ≠ "")
    (h1 : env.jobCreateError = none) (h5 : env.failUpdateError = none)
    (hwf : st.wf) :
    (ttsSynthesize env input st).1 = .error e ∧
    (ttsSynthesize env input st).2.ttsJobs =
      st.ttsJobs ++
        [⟨st.nextId, input.orgId, input.userId, input.apiKeyId, input.text,
          input.language, input.voiceId, input.emotion, input.speed,
          .failed, some e.message, none, false⟩] ∧
    errorHandler e = ⟨jsOrNat e.status 500, e.message⟩ := by
  rw [ttsSynthesize_thrown_run env e input st hp h1 h5 hwf]
  refine ⟨rfl, rfl, ?_⟩
  unfold errorHandler
  rw [if_neg hne]

/-- Witness for `error_text_echoed_to_client` at the counterexample's input. -/
theorem error_text_echoed_to_client_witness :
    (ttsSynthesize
        ⟨.error ⟨"connect ECONNREFUSED 127.0.0.1:8001", none⟩,
          none, none, none, none, none⟩
        ⟨"org1", none, some "key1", "hi", "en", none, none, none⟩
        Store.empty).1 = .error ⟨"connect ECONNREFUSED 127.0.0.1:8001", none⟩ ∧
    (ttsSynthesize
        ⟨.error ⟨"connect ECONNREFUSED 127.0.0.1:8001", none⟩,
          none, none, none, none, none⟩
        ⟨"org1", none, some "key1", "hi", "en", none, none, none⟩
        Store.empty).2.ttsJobs =
      Store.empty.ttsJobs ++
        [⟨Store.empty.nextId, "org1", none, some "key1", "hi", "en", none,
          none, none, .failed,
          some (JsError.mk "connect ECONNREFUSED 127.0.0.1:8001" none).message,
          none, false⟩] ∧
    errorHandler ⟨"connect ECONNREFUSED 127.0.0.1:8001", none⟩ =
      ⟨jsOrNat (JsError.mk "connect ECONNREFUSED 127.0.0.1:8001" none).status 500,
        (JsError.mk "connect ECONNREFUSED 127.0.0.1:8001" none).message⟩ :=
  error_text_echoed_to_client
    ⟨.error ⟨"connect ECONNREFUSED 127.0.0.1:8001", none⟩,
      none, none, none, none, none⟩
    ⟨"connect ECONNREFUSED 127.0.0.1:8001", none⟩
    ⟨"org1", none, some "key1", "hi", "en", none, none, none⟩
    Store.empty rfl (by decide) rfl rfl (by decide)

/-- C9 counterexample: a request presenting a valid, unrevoked API key is
failed outright when the `lastUsedAt` update throws — `optionalApiKey`
forwards the storage error to the error middleware (HTTP 500) instead of
letting the request proceed. -/
theorem lastUsed_update_failure_counterexample :
    optionalApiKey (fun s => s) 100 (some "connection pool exhausted")
      (some "secret")
      [⟨"k1", "org1", "secret", "prod key", ["tts"], none, none, none⟩]
      AuthState.empty = .failed ⟨"connection pool exhausted", none⟩ ∧
    (errorHandler ⟨"connection pool exhausted", none⟩).httpStatus = 500 := by
  exact ⟨rfl, rfl⟩

/-- C9 amended: the `lastUsedAt` update of a valid, unrevoked key is awaited
in-line inside `attachApiKey`: when it succeeds the request proceeds with the
identity attached, but when it throws, the error propagates through
`optionalApiKey`'s catch into `next(error)` and the request fails with an
internal error — the update is not best-effort. -/
theorem lastUsed_update_failure_fails_request (hashKey : String → String)
    (now : Nat) (raw m : String) (keys : List ApiKeyRecord) (auth : AuthState)
    (rec : ApiKeyRecord)
    (hfind : keys.find? (fun k => k.keyHash = hashKey (jsTrim raw)) = some rec)
    (hactive : rec.revokedAt = none) :
    optionalApiKey hashKey now (some m) (some raw) keys auth =
      .failed ⟨m, none⟩ ∧
    optionalApiKey hashKey now none (some raw) keys auth =
      .next ({ auth with apiKey := some rec, orgId := some rec.orgId },
        keys.map fun k =>
          if k.id = rec.id then { k with lastUsedAt := some now } else k) := by
  constructor <;>
    · simp [optionalApiKey, attachApiKey, hfind, hactive]

/-- Witness for `lastUsed_update_failure_fails_request` at a concrete key. -/
theorem lastUsed_update_failure_fails_request_witness :
    optionalApiKey (fun s => s) 100 (some "connection pool exhausted")
      (some "secret")
      [⟨"k1", "org1", "secret", "prod key", ["tts"], none, none, none⟩]
      AuthState.empty = .failed ⟨"connection pool exhausted", none⟩ ∧
    optionalApiKey (fun s => s) 100 none (some "secret")
      [⟨"k1", "org1", "secret", "prod key", ["tts"], none, none, none⟩]
      AuthState.empty =
      .next ({ AuthState.empty with
                apiKey := some ⟨"k1", "org1", "secret", "prod key", ["tts"], none, none, none⟩,
                orgId := some (ApiKeyRecord.mk "k1" "org1" "secret" "prod key" ["tts"] none none none).orgId },
        [⟨"k1", "org1", "secret", "prod key", ["tts"], none, none, none⟩].map fun k =>
          if k.id = (ApiKeyRecord.mk "k1" "org1" "secret" "prod key" ["tts"] none none none).id then
            { k with lastUsedAt := some 100 }
          else k) :=
  lastUsed_update_failure_fails_request (fun s => s) 100 "secret"
    "connection pool exhausted"
    [⟨"k1", "org1", "secret", "prod key", ["tts"], none, none, none⟩]
    AuthState.empty
    ⟨"k1", "org1", "secret", "prod key", ["tts"], none, none, none⟩
    (by decide) rfl

/-- C7 counterexample: a completed recognition job whose provider reply
carries `meta.duration_seconds = 0` (present!) and a last word timestamp
ending at `-2` is billed `-2` units: the present provider-reported duration
is ignored (the code requires it to be `> 0`) and the recorded units are
negative. -/
theorem recognition_units_counterexample :
    ((sttTranscribe
        (SttEnv.allOk ⟨"hi", "en", 1, [⟨0, -2, "hi"⟩], some 0, none⟩)
        ⟨"org1", none, some "key1", none, "a.wav", "audio/wav", 10⟩
        Store.empty).2.usageRecords.map UsageRecord.units = [(-2 : Rat)]) ∧
    ((-2 : Rat) < 0) ∧
    (MlSttResult.mk "hi" "en" 1 [⟨0, -2, "hi"⟩] (some 0) none).metaDurationSeconds
      = some 0 := by
  refine ⟨?_, by norm_num, rfl⟩
  rfl

/-- C7 amended: for every completed recognition job (provider reply `r`, all
storage calls succeeding), the run returns `ok` — a missing duration never
causes a failure — and appends one usage record whose units are
`deriveDurationSeconds(r) ?? 0`, which equals the provider-reported
`meta.duration_seconds` only when that value parses as a number strictly
greater than 0; otherwise it is the end time of the last word timestamp taken
as-is (which may be zero or negative if the provider reports such an end
time); and 0 when timestamps are empty. -/
theorem recognition_units_amended (env : SttEnv) (r : MlSttResult)
    (input : TranscribeInput) (st : Store)
    (hp : env.provider = .ok r)
    (h1 : env.uploadError = none) (h2 : env.audioCreateError = none)
    (h3 : env.jobCreateError = none) (h4 : env.transcriptionCreateError = none)
    (h5 : env.audioUpdateError = none) (h6 : env.completeUpdateError = none)
    (h7 : env.usageCreateError = none) (hwf : st.wf) :
    (∃ j : SttJob, (sttTranscribe env input st).1 = .ok j ∧
      j.status = .completed) ∧
    (sttTranscribe env input st).2.usageRecords = st.usageRecords ++
      [⟨input.orgId, input.apiKeyId, "stt",
        (deriveDurationSeconds r).getD 0, st.nextId + 1⟩] ∧
    (∀ d, r.metaDurationSeconds = some d → 0 < d →
      (deriveDurationSeconds r).getD 0 = d) ∧
    ((r.metaDurationSeconds = none ∨
        ∃ d, r.metaDurationSeconds = some d ∧ d ≤ 0) →
      (∀ last, r.timestamps.getLast? = some last →
        (deriveDurationSeconds r).getD 0 = last.«end») ∧
      (r.timestamps = [] → (deriveDurationSeconds r).getD 0 = 0)) := by
  rw [sttTranscribe_ok_run env r input st hp h1 h2 h3 h4 h5 h6 h7 hwf]
  refine ⟨⟨_, rfl, rfl⟩, rfl, ?_, ?_⟩
  · intro d hd hpos
    simp [deriveDurationSeconds, hd, hpos]
  · intro hnp
    have hstep : deriveDurationSeconds r = (r.timestamps.getLast?).map (·.«end») := by
      rcases hnp with hn | ⟨d, hd, hle⟩
      · simp [deriveDurationSeconds, hn]
      · simp [deriveDurationSeconds, hd, not_lt.mpr hle]
    constructor
    · intro last hlast
      rw [hstep, hlast]
      rfl
    · intro hts
      rw [hstep, hts]
      rfl

/-- Witness for `recognition_units_amended` at the counterexample's reply
(meta duration present but 0, last timestamp end `-2`). -/
theorem recognition_units_amended_witness :
    (∃ j : SttJob,
      (sttTranscribe
        (SttEnv.allOk ⟨"hi", "en", 1, [⟨0, -2, "hi"⟩], some 0, none⟩)
        ⟨"org1", none, some "key1", none, "a.wav", "audio/wav", 10⟩
        Store.empty).1 = .ok j ∧ j.status = .completed) ∧
    (sttTranscribe
        (SttEnv.allOk ⟨"hi", "en", 1, [⟨0, -2, "hi"⟩], some 0, none⟩)
        ⟨"org1", none, some "key1", none, "a.wav", "audio/wav", 10⟩
        Store.empty).2.usageRecords = Store.empty.usageRecords ++
      [⟨"org1", some "key1", "stt",
        (deriveDurationSeconds ⟨"hi", "en", 1, [⟨0, -2, "hi"⟩], some 0, none⟩).getD 0,
        Store.empty.nextId + 1⟩] ∧
    (∀ d, (MlSttResult.mk "hi" "en" 1 [⟨0, -2, "hi"⟩] (some 0) none).metaDurationSeconds = some d →
      0 < d →
      (deriveDurationSeconds ⟨"hi", "en", 1, [⟨0, -2, "hi"⟩], some 0, none⟩).getD 0 = d) ∧
    (((MlSttResult.mk "hi" "en" 1 [⟨0, -2, "hi"⟩] (some 0) none).metaDurationSeconds = none ∨
        ∃ d, (MlSttResult.mk "hi" "en" 1 [⟨0, -2, "hi"⟩] (some 0) none).metaDurationSeconds = some d ∧ d ≤ 0) →
      (∀ last, (MlSttResult.mk "hi" "en" 1 [⟨0, -2, "hi"⟩] (some 0) none).timestamps.getLast? = some last →
        (deriveDurationSeconds ⟨"hi", "en", 1, [⟨0, -2, "hi"⟩], some 0, none⟩).getD 0 = last.«end») ∧
      ((MlSttResult.mk "hi" "en" 1 [⟨0, -2, "hi"⟩] (some 0) none).timestamps = [] →
        (deriveDurationSeconds ⟨"hi", "en", 1, [⟨0, -2, "hi"⟩], some 0, none⟩).getD 0 = 0)) :=
  recognition_units_amended
    (SttEnv.allOk ⟨"hi", "en", 1, [⟨0, -2, "hi"⟩], some 0, none⟩)
    ⟨"hi", "en", 1, [⟨0, -2, "hi"⟩], some 0, none⟩
    ⟨"org1", none, some "key1", none, "a.wav", "audio/wav", 10⟩
    Store.empty rfl rfl rfl rfl rfl rfl rfl rfl (by decide)

/-- An environment whose provider call reports success (with an audio path)
and whose storage calls on the success path all succeed. -/
def TtsEnv.good (env : TtsEnv) : Prop :=
  (∃ r, env.provider = .ok r ∧
    (jsToLower r.status = "success" && jsTruthyStr r.audioPath) = true) ∧
  env.jobCreateError = none ∧ env.audioCreateError = none ∧
  env.completeUpdateError = none ∧ env.usageCreateError = none

theorem wf_extend_tts (st : Store) (hwf : st.wf) (j : TtsJob) (f : AudioFile)
    (tr : List TranscriptionRow) (ur : List UsageRecord)
    (hj : j.id < st.nextId + 1 + 1) (hf : f.id < st.nextId + 1 + 1) :
    Store.wf ⟨st.nextId + 1 + 1, st.ttsJobs ++ [j], st.sttJobs,
      st.audioFiles ++ [f], tr, ur⟩ := by
  obtain ⟨h1, h2, h3⟩ := hwf
  unfold Store.wf
  dsimp only
  refine ⟨?_, ?_, ?_⟩
  · intro x hx
    rcases List.mem_append.mp hx with hx | hx
    · exact Nat.lt_trans (h1 x hx) (by omega)
    · simp only [List.mem_singleton] at hx
      subst hx
      exact hj
  · intro x hx
    exact Nat.lt_trans (h2 x hx) (by omega)
  · intro x hx
    rcases List.mem_append.mp hx with hx | hx
    · exact Nat.lt_trans (h3 x hx) (by omega)
    · simp only [List.mem_singleton] at hx
      subst hx
      exact hf

/-- C1 counterexample: a 3-item batch whose second item's provider call times
out does **not** yield 3 jobs and 2 usage records: `synthesizeBatch` has no
per-item catch, so the second item's rethrown error aborts the loop.  Only 2
jobs exist (1 `completed`, 1 `failed`), exactly 1 usage record exists, the
third item is never dispatched, and the whole batch call rejects with the
timeout error. -/
theorem batch_independent_failure_counterexample :
    ((ttsSynthesizeBatch
        [TtsEnv.allOk ⟨some "/audio/ok.wav", some 1, "success", none, none⟩,
         ⟨.error ⟨"timeout of 30000ms exceeded", none⟩, none, none, none, none, none⟩,
         TtsEnv.allOk ⟨some "/audio/ok.wav", some 1, "success", none, none⟩]
        ⟨"org1", none, some "key1"⟩
        [⟨"one", "en", none, none, none⟩, ⟨"two", "en", none, none, none⟩,
         ⟨"three", "en", none, none, none⟩]
        Store.empty).2.ttsJobs.map TtsJob.status = [.completed, .failed]) ∧
    ((ttsSynthesizeBatch
        [TtsEnv.allOk ⟨some "/audio/ok.wav", some 1, "success", none, none⟩,
         ⟨.error ⟨"timeout of 30000ms exceeded", none⟩, none, none, none, none, none⟩,
         TtsEnv.allOk ⟨some "/audio/ok.wav", some 1, "success", none, none⟩]
        ⟨"org1", none, some "key1"⟩
        [⟨"one", "en", none, none, none⟩, ⟨"two", "en", none, none, none⟩,
         ⟨"three", "en", none, none, none⟩]
        Store.empty).2.usageRecords.length = 1) ∧
    ((ttsSynthesizeBatch
        [TtsEnv.allOk ⟨some "/audio/ok.wav", some 1, "success", none, none⟩,
         ⟨.error ⟨"timeout of 30000ms exceeded", none⟩, none, none, none, none, none⟩,
         TtsEnv.allOk ⟨some "/audio/ok.wav", some 1, "success", none, none⟩]
        ⟨"org1", none, some "key1"⟩
        [⟨"one", "en", none, none, none⟩, ⟨"two", "en", none, none, none⟩,
         ⟨"three", "en", none, none, none⟩]
        Store.empty).1 = .error ⟨"timeout of 30000ms exceeded", none⟩) ∧
    ¬(((ttsSynthesizeBatch
        [TtsEnv.allOk ⟨some "/audio/ok.wav", some 1, "success", none, none⟩,
         ⟨.error ⟨"timeout of 30000ms exceeded", none⟩, none, none, none, none, none⟩,
         TtsEnv.allOk ⟨some "/audio/ok.wav", some 1, "success", none, none⟩]
        ⟨"org1", none, some "key1"⟩
        [⟨"one", "en", none, none, none⟩, ⟨"two", "en", none, none, none⟩,
         ⟨"three", "en", none, none, none⟩]
        Store.empty).2.ttsJobs.length = 3) ∧
      ((ttsSynthesizeBatch
        [TtsEnv.allOk ⟨some "/audio/ok.wav", some 1, "success", none, none⟩,
         ⟨.error ⟨"timeout of 30000ms exceeded", none⟩, none, none, none, none, none⟩,
         TtsEnv.allOk ⟨some "/audio/ok.wav", some 1, "success", none, none⟩]
        ⟨"org1", none, some "key1"⟩
        [⟨"one", "en", none, none, none⟩, ⟨"two", "en", none, none, none⟩,
         ⟨"three", "en", none, none, none⟩]
        Store.empty).2.usageRecords.length = 2)) := by
  refine ⟨?_, ?_, ?_, ?_⟩
  · rfl
  · rfl
  · rfl
  · intro h
    exact absurd h.1 (by decide)

/-- Head step of `synthesizeBatch` when the first item's provider call throws:
the loop stops at the first awaited `synthesize` rejection. -/
theorem ttsSynthesizeBatch_thrown_head (env : TtsEnv) (e : JsError)
    (envs : List TtsEnv) (item : TtsBatchItem) (items : List TtsBatchItem)
    (ctx : OrgContext) (st : Store)
    (hp : env.provider = .error e) (h1 : env.jobCreateError = none)
    (h5 : env.failUpdateError = none) (hwf : st.wf) :
    ttsSynthesizeBatch (env :: envs) ctx (item :: items) st =
      (.error e,
       { nextId := st.nextId + 1,
         ttsJobs := st.ttsJobs ++
           [⟨st.nextId, (item.toInput ctx).orgId, (item.toInput ctx).userId,
             (item.toInput ctx).apiKeyId, (item.toInput ctx).text,
             (item.toInput ctx).language, (item.toInput ctx).voiceId,
             (item.toInput ctx).emotion, (item.toInput ctx).speed,
             .failed, some e.message, none, false⟩],
         sttJobs := st.sttJobs,
         audioFiles := st.audioFiles,
         transcriptions := st.transcriptions,
         usageRecords := st.usageRecords }) := by
  simp only [ttsSynthesizeBatch]
  rw [ttsSynthesize_thrown_run env e (item.toInput ctx) st hp h1 h5 hwf]

/-- Head step of `synthesizeBatch` when the first item's provider reply
reports a non-success status: the loop stops at the rethrown pipeline error. -/
theorem ttsSynthesizeBatch_pipelineFail_head (env : TtsEnv)
    (r : MlTtsResponse) (envs : List TtsEnv) (item : TtsBatchItem)
    (items : List TtsBatchItem) (ctx : OrgContext) (st : Store)
    (hp : env.provider = .ok r)
    (hs : (jsToLower r.status = "success" && jsTruthyStr r.audioPath) = false)
    (h1 : env.jobCreateError = none) (h5 : env.failUpdateError = none)
    (hwf : st.wf) :
    ttsSynthesizeBatch (env :: envs) ctx (item :: items) st =
      (.error ⟨jsOrStr r.metaError "TTS synthesis failed", none⟩,
       { nextId := st.nextId + 1,
         ttsJobs := st.ttsJobs ++
           [⟨st.nextId, (item.toInput ctx).orgId, (item.toInput ctx).userId,
             (item.toInput ctx).apiKeyId, (item.toInput ctx).text,
             (item.toInput ctx).language, (item.toInput ctx).voiceId,
             (item.toInput ctx).emotion, (item.toInput ctx).speed,
             .failed, some (jsOrStr r.metaError "TTS synthesis failed"), none,
             false⟩],
         sttJobs := st.sttJobs,
         audioFiles := st.audioFiles,
         transcriptions := st.transcriptions,
         usageRecords := st.usageRecords }) := by
  simp only [ttsSynthesizeBatch]
  rw [ttsSynthesize_pipelineFail_run env r (item.toInput ctx) st hp hs h1 h5 hwf]

/-- C1 amended: batch items are dispatched sequentially with **no** per-item
failure isolation.  If the items before position k all succeed and item k's
provider call fails, the batch call rejects with that error; exactly k+1 jobs
are appended (the first k `completed`, the (k+1)-st `failed`), exactly k usage
records are appended, and the items after position k are never dispatched (no
rows are created for them). -/
theorem batch_aborts_on_item_failure (goodRuns : List (TtsEnv × TtsBatchItem))
    (badEnv : TtsEnv) (badItem : TtsBatchItem) (restEnvs : List TtsEnv)
    (restItems : List TtsBatchItem) (ctx : OrgContext)
    (hbad : (∃ e, badEnv.provider = .error e) ∨
      (∃ r, badEnv.provider = .ok r ∧
        (jsToLower r.status = "success" && jsTruthyStr r.audioPath) = false))
    (hb1 : badEnv.jobCreateError = none) (hb5 : badEnv.failUpdateError = none) :
    ∀ st : Store, st.wf → (∀ p ∈ goodRuns, p.1.good) →
    ∃ e st',
      ttsSynthesizeBatch (goodRuns.map Prod.fst ++ badEnv :: restEnvs) ctx
        (goodRuns.map Prod.snd ++ badItem :: restItems) st = (.error e, st') ∧
      (∃ newJobs, st'.ttsJobs = st.ttsJobs ++ newJobs ∧
        newJobs.map TtsJob.status =
          List.replicate goodRuns.length .completed ++ [.failed]) ∧
      (∃ newRecs, st'.usageRecords = st.usageRecords ++ newRecs ∧
        newRecs.length = goodRuns.length) := by
  induction goodRuns with
  | nil =>
    intro st hwf _
    simp only [List.map_nil, List.nil_append, List.length_nil]
    rcases hbad with ⟨e, hp⟩ | ⟨r, hp, hs⟩
    · have hrun := ttsSynthesizeBatch_thrown_head badEnv e restEnvs badItem
        restItems ctx st hp hb1 hb5 hwf
      exact ⟨e, _, hrun, ⟨[_], rfl, rfl⟩, ⟨[], by simp, rfl⟩⟩
    · have hrun := ttsSynthesizeBatch_pipelineFail_head badEnv r restEnvs
        badItem restItems ctx st hp hs hb1 hb5 hwf
      exact ⟨_, _, hrun, ⟨[_], rfl, rfl⟩, ⟨[], by simp, rfl⟩⟩
  | cons p goodRuns ih =>
    intro st hwf hgood
    obtain ⟨⟨r, hp, hs⟩, h1, h2, h3, h4⟩ := hgood p (by simp)
    have hrun := ttsSynthesize_ok_run p.1 r (p.2.toInput ctx) st hp hs h1 h2 h3 h4 hwf
    have hwf1 := wf_extend_tts st hwf
      ⟨st.nextId, (p.2.toInput ctx).orgId, (p.2.toInput ctx).userId,
        (p.2.toInput ctx).apiKeyId, (p.2.toInput ctx).text,
        (p.2.toInput ctx).language, (p.2.toInput ctx).voiceId,
        (p.2.toInput ctx).emotion, (p.2.toInput ctx).speed,
        .completed, none, some (st.nextId + 1), true⟩
      ⟨st.nextId + 1, (p.2.toInput ctx).orgId, r.audioPath.getD "", r.duration⟩
      st.transcriptions
      (st.usageRecords ++
        [⟨(p.2.toInput ctx).orgId, (p.2.toInput ctx).apiKeyId, "tts",
          resolveCharacterUnits (p.2.toInput ctx).text r.metaCharCount,
          st.nextId⟩])
      (show st.nextId < st.nextId + 1 + 1 by omega)
      (show st.nextId + 1 < st.nextId + 1 + 1 by omega)
    obtain ⟨e, st2, hbatch2, ⟨nj, hnj, hstat⟩, ⟨nr, hnr, hlen⟩⟩ :=
      ih _ hwf1 (fun q hq => hgood q (by simp [hq]))
    refine ⟨e, st2, ?_, ?_, ?_⟩
    · simp only [List.map_cons, List.cons_append, ttsSynthesizeBatch]
      rw [hrun]
      dsimp only
      simp only [List.append_eq]
      rw [hbatch2]
    · refine ⟨(⟨st.nextId, (p.2.toInput ctx).orgId, (p.2.toInput ctx).userId,
        (p.2.toInput ctx).apiKeyId, (p.2.toInput ctx).text,
        (p.2.toInput ctx).language, (p.2.toInput ctx).voiceId,
        (p.2.toInput ctx).emotion, (p.2.toInput ctx).speed,
        .completed, none, some (st.nextId + 1), true⟩ : TtsJob) :: nj, ?_, ?_⟩
      · rw [hnj]
        simp
      · simp only [List.map_cons, hstat, List.length_cons,
          List.replicate_succ, List.cons_append]
    · refine ⟨(⟨(p.2.toInput ctx).orgId, (p.2.toInput ctx).apiKeyId, "tts",
        resolveCharacterUnits (p.2.toInput ctx).text r.metaCharCount,
        st.nextId⟩ : UsageRecord) :: nr, ?_, ?_⟩
      · rw [hnr]
        simp
      · simp [hlen]

/-- Witness for `batch_aborts_on_item_failure`: a 3-item batch whose second
item's provider call times out, starting from the empty store. -/
theorem batch_aborts_on_item_failure_witness :
    ∃ e st',
      ttsSynthesizeBatch
        [TtsEnv.allOk ⟨some "/audio/ok.wav", some 1, "success", none, none⟩,
         ⟨.error ⟨"timeout of 30000ms exceeded", none⟩, none, none, none, none, none⟩,
         TtsEnv.allOk ⟨some "/audio/ok.wav", some 1, "success", none, none⟩]
        ⟨"org1", none, some "key1"⟩
        [⟨"one", "en", none, none, none⟩, ⟨"two", "en", none, none, none⟩,
         ⟨"three", "en", none, none, none⟩]
        Store.empty = (.error e, st') ∧
      (∃ newJobs, st'.ttsJobs = Store.empty.ttsJobs ++ newJobs ∧
        newJobs.map TtsJob.status =
          List.replicate 1 .completed ++ [.failed]) ∧
      (∃ newRecs, st'.usageRecords = Store.empty.usageRecords ++ newRecs ∧
        newRecs.length = 1) :=
  batch_aborts_on_item_failure
    [(TtsEnv.allOk ⟨some "/audio/ok.wav", some 1, "success", none, none⟩,
      (⟨"one", "en", none, none, none⟩ : TtsBatchItem))]
    ⟨.error ⟨"timeout of 30000ms exceeded", none⟩, none, none, none, none, none⟩
    ⟨"two", "en", none, none, none⟩
    [TtsEnv.allOk ⟨some "/audio/ok.wav", some 1, "success", none, none⟩]
    [⟨"three", "en", none, none, none⟩]
    ⟨"org1", none, some "key1"⟩
    (Or.inl ⟨⟨"timeout of 30000ms exceeded", none⟩, rfl⟩)
    rfl rfl Store.empty (by decide)
    (by
      intro p hp
      simp only [List.mem_singleton] at hp
      subst hp
      exact ⟨⟨⟨some "/audio/ok.wav", some 1, "success", none, none⟩, rfl,
        by decide⟩, rfl, rfl, rfl, rfl⟩)

/-! ## Claims about the throughput guard -/

/-- Running the limiter over requests that all fall inside the live window of
the bucket `⟨c, e⟩`: the next `limit - c` requests are admitted, every later
request is rejected with HTTP 429 and the ceiling of the remaining seconds,
and the final count is capped at `limit`. -/
theorem rateLimitRun_in_window (limit w : Nat) :
    ∀ (ts : List Nat) (c e : Nat), c ≤ limit → (∀ t ∈ ts, t < e) →
    rateLimitRun limit w ts (some ⟨c, e⟩) =
      (List.replicate (min ts.length (limit - c)) .admitted ++
        (ts.drop (limit - c)).map
          (fun t => RateDecision.rejected 429 ((e - t + 999) / 1000)),
       some ⟨min (c + ts.length) limit, e⟩) := by
  intro ts
  induction ts with
  | nil =>
    intro c e hc _
    simp only [rateLimitRun, List.length_nil, Nat.min_zero, Nat.zero_min,
      List.replicate, List.drop_nil, List.map_nil, List.nil_append,
      Nat.add_zero]
    rw [Nat.min_eq_left hc]
  | cons t ts ih =>
    intro c e hc hin
    have hte : ¬ e ≤ t := Nat.not_le.mpr (hin t (by simp))
    by_cases hcl : limit ≤ c
    · have hlc : limit - c = 0 := Nat.sub_eq_zero_of_le hcl
      have hmin0 : min (ts.length + 1) (limit - c) = 0 := by omega
      have hmin1 : min ts.length (limit - c) = 0 := by omega
      have hcnt : min (c + (ts.length + 1)) limit = min (c + ts.length) limit := by
        omega
      simp only [rateLimitRun, rateLimitStep, if_neg hte, if_pos hcl]
      rw [ih c e hc fun x hx => hin x (by simp [hx])]
      simp only [List.length_cons, hmin0, hmin1, hlc, Nat.min_zero,
        List.replicate, List.drop_zero, List.map_cons, List.nil_append, hcnt]
    · have hcl' : c < limit := Nat.lt_of_not_le hcl
      obtain ⟨k, hk⟩ : ∃ k, limit - c = k + 1 :=
        ⟨limit - c - 1, by omega⟩
      have h1 : limit - (c + 1) = k := by omega
      have h2 : c + (ts.length + 1) = c + 1 + ts.length := by omega
      simp only [rateLimitRun, rateLimitStep, if_neg hte, if_neg hcl]
      rw [ih (c + 1) e hcl' fun x hx => hin x (by simp [hx])]
      simp only [h1, List.length_cons, hk, Nat.succ_min_succ,
        List.replicate_succ, List.drop_succ_cons, List.cons_append, h2]

/-- C3: for a sequence of requests sharing one bucket key, all issued inside
the single window opened by the first request (with effective limit `L ≥ 1` —
per-key overrides are validated positive and the configured default is
positive), requests 1..L are admitted and requests L+1..N are rejected with
an HTTP 429 response whose retry-after value is the ceiling of the remaining
milliseconds of the window divided by 1000 (whole seconds until expiry); and
the first request at or after the window's expiry instant is admitted and
starts a fresh window with count 1. -/
theorem rate_limit_fixed_window (L w t1 : Nat) (rest : List Nat) (t' : Nat)
    (hL : 0 < L) (hin : ∀ t ∈ rest, t < t1 + w) (hexp : t1 + w ≤ t') :
    (rateLimitRun L w (t1 :: rest) none).1 =
      List.replicate (min (t1 :: rest).length L) .admitted ++
        ((t1 :: rest).drop L).map
          (fun t => RateDecision.rejected 429 ((t1 + w - t + 999) / 1000)) ∧
    rateLimitStep L w t' (rateLimitRun L w (t1 :: rest) none).2 =
      (.admitted, some ⟨1, t' + w⟩) := by
  obtain ⟨k, hk⟩ : ∃ k, L = k + 1 := ⟨L - 1, by omega⟩
  have hrun := rateLimitRun_in_window L w rest 1 (t1 + w) (by omega) hin
  have hfull : rateLimitRun L w (t1 :: rest) none =
      (.admitted :: (rateLimitRun L w rest (some ⟨1, t1 + w⟩)).1,
       (rateLimitRun L w rest (some ⟨1, t1 + w⟩)).2) := by
    simp [rateLimitRun, rateLimitStep]
  constructor
  · rw [hfull]
    simp only [hrun]
    simp only [hk, List.length_cons, Nat.succ_min_succ, List.replicate_succ,
      List.drop_succ_cons, List.cons_append]
    have : k + 1 - 1 = k := by omega
    rw [this]
  · rw [hfull]
    simp only [hrun]
    simp [rateLimitStep, hexp]

/-- Witness for `rate_limit_fixed_window`: limit 2, a 60-second window opened
at t=0 with requests at 0ms, 10000ms, 30500ms and 59999ms (admitted, admitted,
rejected with retry-after 30, rejected with retry-after 1), then a request at
60000ms admitted into a fresh window. -/
theorem rate_limit_fixed_window_witness :
    (rateLimitRun 2 60000 [0, 10000, 30500, 59999] none).1 =
      List.replicate (min ([0, 10000, 30500, 59999] : List Nat).length 2)
        .admitted ++
        (([0, 10000, 30500, 59999] : List Nat).drop 2).map
          (fun t => RateDecision.rejected 429 ((0 + 60000 - t + 999) / 1000)) ∧
    rateLimitStep 2 60000 60000 (rateLimitRun 2 60000 [0, 10000, 30500, 59999] none).2 =
      (.admitted, some ⟨1, 60000 + 60000⟩) :=
  rate_limit_fixed_window 2 60000 0 [10000, 30500, 59999] 60000
    (by decide) (by decide) (by decide)

end TtsStt
